import Mathlib

/-!
Shallow embedding of RigelEngine's tile-map renderer
(`src/engine/map_renderer.cpp`) and player control / map scroll systems
(`src/game_logic/player_control_system.cpp`), together with proofs about
the properties stated in the specification.

Machine integers (C++ `int`) are modelled as `Int`; the C++ `%` operator
on `int` truncates towards zero, which corresponds to `Int.tmod`.
C++ `float` velocities are modelled as `Rat`; the only velocity values
ever assigned in this code are exact constants, so this is faithful.
-/

namespace Rigel

/-- Integer 2D vector, mirroring `base::Vector` (x, y : int). -/
structure Vec where
  x : Int
  y : Int
deriving DecidableEq

/-- Integer 2D size, mirroring `base::Extents` (width, height : int). -/
structure Extents where
  width : Int
  height : Int
deriving DecidableEq

/-- Componentwise vector addition, as `base::Vector::operator+`. -/
def Vec.add (a b : Vec) : Vec := ⟨a.x + b.x, a.y + b.y⟩

/-- Componentwise vector subtraction, as `base::Vector::operator-`. -/
def Vec.sub (a b : Vec) : Vec := ⟨a.x - b.x, a.y - b.y⟩

/-- Rectangle given by top-left corner and size, mirroring `base::Rect<int>`. -/
structure Rect where
  topLeft : Vec
  size : Extents
deriving DecidableEq

/-- Modelled from the spec: inclusive bottom-right corner of a `base::Rect`
(`topLeft + size - (1,1)`); the header `base/spatial_types.hpp` is not part
of the extracted sources.  This convention is the one consistent with the
spec's dead-zone pushback and ladder-row descriptions. -/
def Rect.bottomRight (r : Rect) : Vec :=
  ⟨r.topLeft.x + r.size.width - 1, r.topLeft.y + r.size.height - 1⟩

/-- Modelled from the spec: inclusive bottom-left corner of a `base::Rect`. -/
def Rect.bottomLeft (r : Rect) : Vec :=
  ⟨r.topLeft.x, r.topLeft.y + r.size.height - 1⟩

/-- Modelled from the spec: top edge y coordinate of a `base::Rect`. -/
def Rect.top (r : Rect) : Int := r.topLeft.y

/-- Modelled from the spec: inclusive bottom edge y coordinate of a `base::Rect`. -/
def Rect.bottom (r : Rect) : Int := r.bottomRight.y

/-- Modelled from the spec: `utils::clamp(v, lo, hi)`, the standard clamp
(`max lo (min v hi)`); `utils/math_tools.hpp` is not part of the extracted
sources. -/
def clamp (v lo hi : Int) : Int := max lo (min v hi)

/-! ## Tile attributes (`data/map.hpp` attribute dictionary, consumed read-only) -/

/-- Per-tile-index attribute flags, as exposed by the attribute dictionary
(`isForeGround`, `isAnimated`, `isFastAnimation`, `isLadder`). -/
structure TileAttributes where
  isForeGround : Bool
  isAnimated : Bool
  isFastAnimation : Bool
  isLadder : Bool
deriving DecidableEq

/-! ## Map renderer (`src/engine/map_renderer.cpp`) -/

/-- Backdrop scroll mode enum `data::map::BackdropScrollMode`. -/
inductive BackdropScrollMode where
  | None
  | ParallaxHorizontal
  | ParallaxVertical
  | ParallaxBoth
  | AutoHorizontal
  | AutoVertical
deriving DecidableEq

/-- Constant `ANIM_STATES = 4` from `map_renderer.cpp`. -/
def ANIM_STATES : Nat := 4

/-- Constant `FAST_ANIM_FRAME_DELAY = 1` from `map_renderer.cpp`. -/
def FAST_ANIM_FRAME_DELAY : Nat := 1

/-- Constant `SLOW_ANIM_FRAME_DELAY = 2` from `map_renderer.cpp`. -/
def SLOW_ANIM_FRAME_DELAY : Nat := 2

/-- Constant `PARALLAX_FACTOR = 4` from `map_renderer.cpp`. -/
def PARALLAX_FACTOR : Int := 4

/-- The helper `wrapBackgroundOffset` of `map_renderer.cpp`: componentwise
C++ `%` against the viewport pixel extents.  The viewport pixel extents
`GameTraits::viewPortWidthPx` / `viewPortHeightPx` are configuration
constants from a header outside the extracted sources, so they are passed
as parameters `vwPx`, `vhPx`. -/
def wrapBackgroundOffset (vwPx vhPx : Int) (offset : Vec) : Vec :=
  ⟨offset.x.tmod vwPx, offset.y.tmod vhPx⟩

/-- Modelled from the spec: `base::round` under `FE_TONEAREST` applied to
`f / 2.0` (the only non-trivial division the auto-scroll code performs);
`base/math_tools.hpp` is not part of the extracted sources.  The spec says
rounding is round-to-nearest on the fractional position; with the rounding
mode set to `FE_TONEAREST`, ties (odd `f`) resolve to the even neighbour. -/
def roundHalfDiv2 (f : Nat) : Nat :=
  if f % 2 = 0 then f / 2
  else if (f / 2) % 2 = 0 then f / 2 else f / 2 + 1

/-- The backdrop offset computation of `MapRenderer::renderBackdrop`
(lines 97-126): returns the computed `offset` together with the new value
of the `mElapsedFrames60Fps` counter (incremented only in the auto-scroll
branch).  `camera` is the `cameraPosition` argument; `elapsed` is the
current `mElapsedFrames60Fps`. -/
def renderBackdropOffset (vwPx vhPx : Int) (mode : BackdropScrollMode)
    (camera : Vec) (elapsed : Nat) : Vec × Nat :=
  let parallaxBoth := mode = BackdropScrollMode.ParallaxBoth
  let parallaxHorizontal :=
    mode = BackdropScrollMode.ParallaxHorizontal ∨ parallaxBoth
  let autoScrollX := mode = BackdropScrollMode.AutoHorizontal
  let autoScrollY := mode = BackdropScrollMode.AutoVertical
  if parallaxHorizontal ∨ parallaxBoth then
    (wrapBackgroundOffset vwPx vhPx
      ⟨if parallaxHorizontal then camera.x * PARALLAX_FACTOR else 0,
       if parallaxBoth then camera.y * PARALLAX_FACTOR else 0⟩,
     elapsed)
  else if autoScrollX ∨ autoScrollY then
    let offsetPixels : Int :=
      if autoScrollX then (roundHalfDiv2 elapsed : Int) else (elapsed : Int)
    if autoScrollX then
      (⟨offsetPixels.tmod vwPx, 0⟩, elapsed + 1)
    else
      (⟨0, vhPx - offsetPixels.tmod vhPx⟩, elapsed + 1)
  else
    (⟨0, 0⟩, elapsed)

/-- State of the two backdrop texture slots of `MapRenderer`:
`mBackdropTexture` and `mAlternativeBackdropTexture`.  A texture is
modelled as an `Option Nat` resource handle; `none` is the
default-constructed (empty) texture that `mAlternativeBackdropTexture`
holds when no secondary backdrop image was supplied at construction. -/
structure BackdropState where
  mBackdropTexture : Option Nat
  mAlternativeBackdropTexture : Option Nat
deriving DecidableEq

/-- `MapRenderer::switchBackdrops` (lines 72-74): an unconditional
`std::swap` of the two texture slots. -/
def switchBackdrops (s : BackdropState) : BackdropState :=
  ⟨s.mAlternativeBackdropTexture, s.mBackdropTexture⟩

/-- A single run of the inner loop body of `MapRenderer::renderMapTiles`
(lines 150-177), recorded as the list of `(layer, col, row)` triples at
which `mpMap->tileAt` is invoked.  The map dimensions are `mapW`, `mapH`
(a map's dimensions are non-negative, so they are `Nat`); the clip test
`col >= width || row >= height` is the signed C++ comparison. -/
def renderMapTilesLookups (mapW mapH : Nat) (sectionStart : Vec)
    (sectionSize : Extents) : List (Nat × Int × Int) :=
  ([0, 1] : List Nat).flatMap fun layer =>
    (List.range sectionSize.height.toNat).flatMap fun (y : Nat) =>
      (List.range sectionSize.width.toNat).filterMap fun (x : Nat) =>
        if (x : Int) + sectionStart.x ≥ (mapW : Int) ∨
            (y : Int) + sectionStart.y ≥ (mapH : Int) then none
        else some (layer, (x : Int) + sectionStart.x, (y : Int) + sectionStart.y)

/-- `MapRenderer::animatedTileIndex` (lines 209-224): substitute an
animated tile's index by adding the cycling animation offset.  `attrs` is
the attribute dictionary lookup `mpMap->attributeDict().attributes`;
`elapsed` is `mElapsedFrames`; `tileIndex` is a tile index (non-negative). -/
def animatedTileIndex (attrs : Nat → TileAttributes) (elapsed : Nat)
    (tileIndex : Nat) : Nat :=
  if (attrs tileIndex).isAnimated then
    let fastAnimOffset := (elapsed / FAST_ANIM_FRAME_DELAY) % ANIM_STATES
    let slowAnimOffset := (elapsed / SLOW_ANIM_FRAME_DELAY) % ANIM_STATES
    if (attrs tileIndex).isFastAnimation then tileIndex + fastAnimOffset
    else tileIndex + slowAnimOffset
  else tileIndex

/-! ## Player control system (`src/game_logic/player_control_system.cpp`) -/

/-- Player state enum `components::PlayerState`. -/
inductive PlayerState where
  | Standing
  | Walking
  | Airborne
  | Crouching
  | LookingUp
  | ClimbingLadder
deriving DecidableEq

/-- Player orientation enum `components::Orientation`. -/
inductive Orientation where
  | Left
  | Right
deriving DecidableEq

/-- The `PlayerControlled` component fields read and written by the
control system. -/
structure PlayerControlled where
  mState : PlayerState
  mOrientation : Orientation
  mPerformedInteraction : Bool
  mIsLookingUp : Bool
  mIsLookingDown : Bool
deriving DecidableEq

/-- Velocity vector, mirroring `base::Point<float>`; the control system
only ever assigns the exact constants 0, ±1 and -3.6, so `Rat` is a
faithful model. -/
structure Velocity where
  x : Rat
  y : Rat
deriving DecidableEq

/-- The `Physical` component: collision rectangle (position-relative),
velocity, gravity-affected flag. -/
structure Physical where
  mCollisionRect : Rect
  mVelocity : Velocity
  mGravityAffected : Bool
deriving DecidableEq

/-- The `PlayerInputState` sampled once per update. -/
structure PlayerInputState where
  mMovingLeft : Bool
  mMovingRight : Bool
  mMovingUp : Bool
  mMovingDown : Bool
  mJumping : Bool
deriving DecidableEq

/-- The precomputed ladder flag grid `mLadderFlags`, with
`valueAtWithDefault(col, row, 0)` semantics: a total function that is
`false` outside the map (out-of-bounds reads yield the default). -/
def LadderGrid : Type := Int → Int → Bool

/-- Construction of `mLadderFlags` in the `PlayerControlSystem`
constructor (lines 106-117): a cell holds a ladder iff either layer's
tile at that cell has the ladder attribute; cells outside the map read as
the default `false`. -/
def buildLadderFlags (mapW mapH : Nat) (attrs : Nat → TileAttributes)
    (tileAt : Nat → Int → Int → Nat) : LadderGrid :=
  fun col row =>
    if 0 ≤ col ∧ col < (mapW : Int) ∧ 0 ≤ row ∧ row < (mapH : Int) then
      (attrs (tileAt 0 col row)).isLadder || (attrs (tileAt 1 col row)).isLadder
    else false

/-- The world-space player bounds computed at lines 160-162:
`physical.mCollisionRect` translated by the world position, with the
top-left y shifted up by `height - 1`. -/
def worldSpaceBounds (ph : Physical) (wp : Vec) : Rect :=
  { topLeft := ⟨ph.mCollisionRect.topLeft.x + wp.x,
               ph.mCollisionRect.topLeft.y + wp.y - (ph.mCollisionRect.size.height - 1)⟩,
    size := ph.mCollisionRect.size }

/-- `PlayerControlSystem::findLadderTouchPoint` (lines 429-443): scan all
rows and columns of the given world-space bounds, row-major from the top,
and return the first cell whose ladder flag is set. -/
def findLadderTouchPoint (grid : LadderGrid) (bounds : Rect) : Option Vec :=
  (List.range bounds.size.height.toNat).findSome? fun (dy : Nat) =>
    (List.range bounds.size.width.toNat).findSome? fun (dx : Nat) =>
      let row := bounds.topLeft.y + (dy : Int)
      let col := bounds.topLeft.x + (dx : Int)
      if grid col row then some ⟨col, row⟩ else none

/-- `PlayerControlSystem::canClimbUp` (lines 401-413): is there a ladder
cell in the row directly above the bounds? -/
def canClimbUp (grid : LadderGrid) (bounds : Rect) : Bool :=
  (List.range bounds.size.width.toNat).any fun (dx : Nat) =>
    grid (bounds.topLeft.x + (dx : Int)) (bounds.topLeft.y - 1)

/-- `PlayerControlSystem::canClimbDown` (lines 415-427): is there a ladder
cell in the row directly below the bounds? -/
def canClimbDown (grid : LadderGrid) (bounds : Rect) : Bool :=
  (List.range bounds.size.width.toNat).any fun (dx : Nat) =>
    grid (bounds.topLeft.x + (dx : Int)) (bounds.bottomLeft.y + 1)

/-- An SDL rectangle as used in the interaction hit test. -/
structure SdlRect where
  x : Int
  y : Int
  w : Int
  h : Int

/-- Modelled from the spec: `SDL_HasIntersection` (SDL is an external
library), the axis-aligned bounding-box intersection test of §4.2 step 9;
empty rectangles never intersect. -/
def sdlHasIntersection (a b : SdlRect) : Bool :=
  decide (0 < a.w ∧ 0 < a.h ∧ 0 < b.w ∧ 0 < b.h ∧
    a.x < b.x + b.w ∧ b.x < a.x + a.w ∧ a.y < b.y + b.h ∧ b.y < a.y + a.h)

/-- The ladder attachment block of `PlayerControlSystem::update`
(lines 164-187): when vertical movement is wanted, the player is not
already climbing, and the direction is up, search the world-space bounds
for a ladder cell; on success transition to `ClimbingLadder`, snap the
horizontal world position to the ladder column (offset 0 when facing
left, 1 when facing right) and disable gravity. -/
def ladderAttachStep (grid : LadderGrid) (verticalMovementWanted movingUp : Bool)
    (bounds : Rect) (st : PlayerControlled) (ph : Physical) (wp : Vec) :
    PlayerControlled × Physical × Vec :=
  if verticalMovementWanted ∧ st.mState ≠ PlayerState.ClimbingLadder then
    if movingUp then
      match findLadderTouchPoint grid bounds with
      | some ladderTouchPoint =>
        let relativeLadderTouchX := ladderTouchPoint.x - wp.x
        let offsetForOrientation : Int :=
          if st.mOrientation = Orientation.Left then 0 else 1
        let diff := relativeLadderTouchX - offsetForOrientation
        ({ st with mState := PlayerState.ClimbingLadder },
         { ph with mGravityAffected := false },
         ⟨wp.x + diff, wp.y⟩)
      | none => (st, ph, wp)
    else (st, ph, wp)
  else (st, ph, wp)

/-- Result of `updateAnimationStateAndBoundingBox`: the new sprite frame,
the optional `Animated` component `(delay, startFrame, endFrame)`, and the
new collision rectangle. -/
structure AnimUpdate where
  frame : Int
  animatedSeq : Option (Nat × Int × Int)
  rect : Rect

/-- `PlayerControlSystem::updateAnimationStateAndBoundingBox`
(lines 335-399): table-driven recomputation of the animation frame and
collision box for the current state and orientation. -/
def updateAnimationStateAndBoundingBox (st : PlayerControlled) : AnimUpdate :=
  let newAnimationFrame : Int :=
    match st.mState with
    | PlayerState.Standing => 0
    | PlayerState.Walking => 1
    | PlayerState.LookingUp => 16
    | PlayerState.Crouching => 17
    | PlayerState.Airborne => 8
    | PlayerState.ClimbingLadder => 36
  let endFrameOffset : Option Int :=
    match st.mState with
    | PlayerState.Walking => some 3
    | _ => none
  let newBoundingRect : Rect :=
    { topLeft := ⟨0, 0⟩,
      size := ⟨3, if st.mState = PlayerState.Crouching then 4 else 5⟩ }
  let orientationOffset : Int :=
    if st.mOrientation = Orientation.Right then 39 else 0
  let orientedAnimationFrame := newAnimationFrame + orientationOffset
  { frame := orientedAnimationFrame,
    animatedSeq := endFrameOffset.map fun e =>
      (4, orientedAnimationFrame, orientedAnimationFrame + e),
    rect := newBoundingRect }

/-- The full per-tick result of `PlayerControlSystem::update`. -/
structure UpdateResult where
  state : PlayerControlled
  physical : Physical
  frame : Int
  animatedSeq : Option (Nat × Int × Int)
  worldPos : Vec
  interactionHits : List Vec
deriving DecidableEq

/-- `PlayerControlSystem::update` (lines 120-333), as a pure function of
the sampled inputs, the result `hasTicks` of the external 2-tick time
stepper, the ladder grid, the list of interactable entity world positions,
and the player's components.  The numbered comments follow the source
line ranges. -/
def update (grid : LadderGrid) (interactables : List Vec)
    (inp : PlayerInputState) (hasTicks : Bool)
    (st0 : PlayerControlled) (ph0 : Physical) (frame0 : Int)
    (anim0 : Option (Nat × Int × Int)) (wp0 : Vec) : UpdateResult :=
  -- lines 138-142: sample inputs
  let movingLeft := inp.mMovingLeft
  let movingRight := inp.mMovingRight
  let movingUp := inp.mMovingUp
  let movingDown := inp.mMovingDown
  let jumping := inp.mJumping
  -- lines 144-146: clear the performed-interaction flag when up released
  let st1 :=
    if st0.mPerformedInteraction ∧ ¬movingUp then
      { st0 with mPerformedInteraction := false }
    else st0
  -- lines 148-154: conflicting directional inputs cancel
  let movingLeft1 := if movingLeft ∧ movingRight then false else movingLeft
  let movingRight1 := if movingLeft ∧ movingRight then false else movingRight
  let movingUp1 := if movingUp ∧ movingDown then false else movingUp
  let movingDown1 := if movingUp ∧ movingDown then false else movingDown
  -- lines 156-158
  let oldState := st1.mState
  let hmw0 := movingLeft1 || movingRight1
  let vmw0 := movingUp1 || movingDown1
  -- lines 160-162
  let bounds := worldSpaceBounds ph0 wp0
  -- lines 164-187: ladder attachment
  let attach := ladderAttachStep grid vmw0 movingUp1 bounds st1 ph0 wp0
  let st2 := attach.1
  let ph1 := attach.2.1
  let wp1 := attach.2.2
  -- lines 189-191: climbing suppresses horizontal movement
  let hmw1 := if st2.mState = PlayerState.ClimbingLadder then false else hmw0
  -- lines 193-198: orientation
  let oldOrientation := st2.mOrientation
  let st3 :=
    if hmw1 then
      { st2 with mOrientation :=
          if movingLeft1 then Orientation.Left else Orientation.Right }
    else st2
  -- lines 201-203: airborne suppresses vertical movement
  let vmw1 := if st3.mState = PlayerState.Airborne then false else vmw0
  -- lines 205-214: crouching/looking up cancel horizontal movement
  let hmw2 :=
    if vmw1 ∧ (st3.mState = PlayerState.LookingUp ∨
        st3.mState = PlayerState.Crouching ∨
        st3.mState = PlayerState.Standing ∨
        st3.mState = PlayerState.Walking) then false
    else hmw1
  -- lines 216-235: climbing movement
  let climb : PlayerControlled × Physical × Bool :=
    if st3.mState = PlayerState.ClimbingLadder then
      if movingUp1 then
        if canClimbUp grid bounds then
          (st3, { ph1 with mVelocity := { ph1.mVelocity with y := -1 } }, vmw1)
        else
          (st3, { ph1 with mVelocity := { ph1.mVelocity with y := 0 } }, vmw1)
      else if movingDown1 then
        if canClimbDown grid bounds then
          (st3, { ph1 with mVelocity := { ph1.mVelocity with y := 1 } }, vmw1)
        else
          ({ st3 with mState := PlayerState.Airborne },
           { ph1 with mGravityAffected := true,
                      mVelocity := { ph1.mVelocity with y := 1 } },
           false)
      else
        (st3, { ph1 with mVelocity := { ph1.mVelocity with y := 0 } }, vmw1)
    else (st3, ph1, vmw1)
  let st4 := climb.1
  let ph2 := climb.2.1
  let vmw2 := climb.2.2
  -- line 237: reset looking flags
  let st5 := { st4 with mIsLookingDown := false, mIsLookingUp := false }
  -- lines 238-275: look-up / crouch resolution, with interaction scan
  let lookRes : PlayerControlled × List Vec :=
    if vmw2 ∧ st5.mState ≠ PlayerState.ClimbingLadder then
      if movingUp1 then
        let stUp :=
          { st5 with mState := PlayerState.LookingUp, mIsLookingUp := true }
        if ¬stUp.mPerformedInteraction then
          let hits := interactables.filter fun pos =>
            sdlHasIntersection
              ⟨pos.x, pos.y - (ph2.mCollisionRect.size.height - 1),
               ph2.mCollisionRect.size.width, ph2.mCollisionRect.size.height⟩
              ⟨bounds.topLeft.x, bounds.topLeft.y,
               bounds.size.width, bounds.size.height⟩
          if hits.isEmpty then (stUp, hits)
          else ({ stUp with mPerformedInteraction := true }, hits)
        else (stUp, [])
      else
        ({ st5 with mState := PlayerState.Crouching, mIsLookingDown := true },
         [])
    else (st5, [])
  let st6 := lookRes.1
  let hits := lookRes.2
  -- lines 277-285: revert to standing when vertical no longer requested
  let st7 :=
    if ¬vmw2 ∧ (st6.mState = PlayerState.LookingUp ∨
        st6.mState = PlayerState.Crouching) then
      { st6 with mState := PlayerState.Standing }
    else st6
  -- lines 287-312: horizontal movement and acceleration delay
  let hres : PlayerControlled × Physical :=
    if ¬hmw2 then
      (if st7.mState = PlayerState.Walking then
        { st7 with mState := PlayerState.Standing }
       else st7,
       { ph2 with mVelocity := { ph2.mVelocity with x := 0 } })
    else
      let stW :=
        if st7.mState = PlayerState.Standing then
          { st7 with mState := PlayerState.Walking }
        else st7
      if stW.mState = PlayerState.Walking ∨ stW.mState = PlayerState.Airborne then
        if hasTicks then
          if hmw2 then
            (stW, { ph2 with mVelocity :=
              { ph2.mVelocity with x := if movingLeft1 then -1 else 1 } })
          else (stW, ph2)
        else (stW, ph2)
      else (stW, ph2)
  let st8 := hres.1
  let ph3 := hres.2
  -- lines 314-319: landing
  let st9 :=
    if ph3.mVelocity.y = 0 ∧ st8.mState = PlayerState.Airborne then
      { st8 with mState := PlayerState.Standing }
    else st8
  -- lines 321-325: jump overrides
  let jres : PlayerControlled × Physical :=
    if jumping ∧ st9.mState ≠ PlayerState.Airborne then
      ({ st9 with mState := PlayerState.Airborne },
       { ph3 with mVelocity := { ph3.mVelocity with y := -18/5 },
                  mGravityAffected := true })
    else (st9, ph3)
  let st10 := jres.1
  let ph4 := jres.2
  -- lines 327-332: recompute animation state and bounding box on change
  if st10.mState ≠ oldState ∨ st10.mOrientation ≠ oldOrientation then
    let au := updateAnimationStateAndBoundingBox st10
    { state := st10,
      physical := { ph4 with mCollisionRect := au.rect },
      frame := au.frame,
      animatedSeq := au.animatedSeq,
      worldPos := wp1,
      interactionHits := hits }
  else
    { state := st10, physical := ph4, frame := frame0,
      animatedSeq := anim0, worldPos := wp1, interactionHits := hits }

/-- The condition under which the ladder attachment snap fires during
`update`: after conflict filtering the direction is up, the player is not
already climbing, and a ladder touch point exists in the world-space
bounds. -/
def ladderGrabOccurs (grid : LadderGrid) (inp : PlayerInputState)
    (st0 : PlayerControlled) (ph0 : Physical) (wp0 : Vec) : Bool :=
  let movingUp1 := if inp.mMovingUp ∧ inp.mMovingDown then false else inp.mMovingUp
  let movingDown1 := if inp.mMovingUp ∧ inp.mMovingDown then false else inp.mMovingDown
  (movingUp1 || movingDown1) &&
    decide (st0.mState ≠ PlayerState.ClimbingLadder) &&
    movingUp1 &&
    (findLadderTouchPoint grid (worldSpaceBounds ph0 wp0)).isSome

/-! ## Map scroll system (`src/game_logic/player_control_system.cpp`, lines 446-520) -/

/-- `scrollDeadZoneForState` (lines 68-76) with the dead zone constants
`DefaultDeadZone` / `ClimbingDeadZone` (lines 48-63).  The viewport tile
dimensions `GameTraits::mapViewPortWidthTiles` / `mapViewPortHeightTiles`
are configuration constants from a header outside the extracted sources,
so they are passed as parameters `vwT`, `vhT`. -/
def scrollDeadZoneForState (vwT vhT : Int) (state : PlayerState) : Rect :=
  match state with
  | PlayerState.ClimbingLadder => { topLeft := ⟨11, 7⟩, size := ⟨vwT - 23, vhT - 14⟩ }
  | _ => { topLeft := ⟨11, 2⟩, size := ⟨vwT - 23, vhT - 3⟩ }

/-- The `mMaxScrollOffset` computed in the `MapScrollSystem` constructor
(lines 453-455): map dimensions minus viewport tile dimensions. -/
def maxScrollOffset (mapW mapH vwT vhT : Int) : Extents :=
  ⟨mapW - vwT, mapH - vhT⟩

/-- `MapScrollSystem::updateScrollOffset` (lines 473-520): apply the
vertical look nudge (gated by the 2-tick stepper result `hasTicks`), push
the scroll offset so the player's collision box re-enters the dead zone,
and clamp the result to `[0, maxScroll]` per axis. -/
def updateScrollOffset (vwT vhT : Int) (maxScroll : Extents)
    (st : PlayerControlled) (playerPosition : Vec) (ph : Physical)
    (hasTicks : Bool) (offset0 : Vec) : Vec :=
  -- lines 479-488: vertical look nudges
  let o1 :=
    if hasTicks then
      let a := if st.mIsLookingDown then Vec.mk offset0.x (offset0.y + 2) else offset0
      if st.mIsLookingUp then Vec.mk a.x (a.y - 2) else a
    else offset0
  -- lines 490-492: player bounds anchored at the world position
  let playerBounds : Rect :=
    { topLeft := ⟨playerPosition.x, playerPosition.y - (ph.mCollisionRect.size.height - 1)⟩,
      size := ph.mCollisionRect.size }
  -- lines 494-495: world-space dead zone
  let dz0 := scrollDeadZoneForState vwT vhT st.mState
  let worldSpaceDeadZone : Rect := { dz0 with topLeft := dz0.topLeft.add o1 }
  -- lines 497-503: horizontal correction
  let offsetLeft := max 0 (worldSpaceDeadZone.topLeft.x - playerPosition.x)
  let offsetRight :=
    min 0 (worldSpaceDeadZone.bottomRight.x - playerBounds.bottomRight.x)
  let offsetX := -offsetLeft - offsetRight
  -- lines 505-511: vertical correction
  let offsetTop := max 0 (worldSpaceDeadZone.top - playerBounds.top)
  let offsetBottom := min 0 (worldSpaceDeadZone.bottom - playerBounds.bottom)
  let offsetY := -offsetTop - offsetBottom
  -- lines 513-519: update and clamp
  let o2 := Vec.mk (o1.x + offsetX) (o1.y + offsetY)
  ⟨clamp o2.x 0 maxScroll.width, clamp o2.y 0 maxScroll.height⟩

/-! ## Shared helper lemmas -/

/-- For non-negative dividend and positive divisor, C++ `%` (`Int.tmod`)
lands in `[0, b)`. -/
theorem tmod_range (a b : Int) (ha : 0 ≤ a) (hb : 0 < b) :
    0 ≤ a.tmod b ∧ a.tmod b < b := by
  rw [Int.tmod_eq_emod ha (le_of_lt hb)]
  exact ⟨Int.emod_nonneg a (ne_of_gt hb), Int.emod_lt_of_pos a hb⟩

/-! ## Claim theorems -/

/-- Claim C1: for every update call of the map scroll controller, whatever
the previous offset, the player position and state, after the update the
scroll offset lies within `[0, maxScroll]` on both axes, provided the map
is at least as large as the viewport (`0 ≤ maxScroll` per axis).  Since
the pre-offset is universally quantified, this holds after each update of
any update sequence. -/
theorem C1_scroll_offset_in_range (vwT vhT : Int) (maxScroll : Extents)
    (st : PlayerControlled) (pp : Vec) (ph : Physical) (hasTicks : Bool)
    (offset0 : Vec) (hW : 0 ≤ maxScroll.width) (hH : 0 ≤ maxScroll.height) :
    0 ≤ (updateScrollOffset vwT vhT maxScroll st pp ph hasTicks offset0).x ∧
    (updateScrollOffset vwT vhT maxScroll st pp ph hasTicks offset0).x ≤ maxScroll.width ∧
    0 ≤ (updateScrollOffset vwT vhT maxScroll st pp ph hasTicks offset0).y ∧
    (updateScrollOffset vwT vhT maxScroll st pp ph hasTicks offset0).y ≤ maxScroll.height := by
  simp only [updateScrollOffset, clamp]
  exact ⟨le_max_left 0 _, max_le hW (min_le_right _ _),
         le_max_left 0 _, max_le hH (min_le_right _ _)⟩

/-- Witness for C1 at a concrete input: a 42x28-tile map with a 32x20
viewport (`maxScroll = (10, 8)`), a standing player at (5, 5), and a
wildly out-of-range previous offset (100, -7). -/
theorem C1_scroll_offset_in_range_witness :
    (0 : Int) ≤ 10 ∧ (0 : Int) ≤ 8 ∧
    (0 ≤ (updateScrollOffset 32 20 ⟨10, 8⟩
        ⟨PlayerState.Standing, Orientation.Left, false, false, false⟩
        ⟨5, 5⟩ ⟨⟨⟨0, 0⟩, ⟨3, 5⟩⟩, ⟨0, 0⟩, true⟩ true ⟨100, -7⟩).x ∧
     (updateScrollOffset 32 20 ⟨10, 8⟩
        ⟨PlayerState.Standing, Orientation.Left, false, false, false⟩
        ⟨5, 5⟩ ⟨⟨⟨0, 0⟩, ⟨3, 5⟩⟩, ⟨0, 0⟩, true⟩ true ⟨100, -7⟩).x ≤ (⟨10, 8⟩ : Extents).width ∧
     0 ≤ (updateScrollOffset 32 20 ⟨10, 8⟩
        ⟨PlayerState.Standing, Orientation.Left, false, false, false⟩
        ⟨5, 5⟩ ⟨⟨⟨0, 0⟩, ⟨3, 5⟩⟩, ⟨0, 0⟩, true⟩ true ⟨100, -7⟩).y ∧
     (updateScrollOffset 32 20 ⟨10, 8⟩
        ⟨PlayerState.Standing, Orientation.Left, false, false, false⟩
        ⟨5, 5⟩ ⟨⟨⟨0, 0⟩, ⟨3, 5⟩⟩, ⟨0, 0⟩, true⟩ true ⟨100, -7⟩).y ≤ (⟨10, 8⟩ : Extents).height) :=
  ⟨by decide, by decide,
   C1_scroll_offset_in_range 32 20 ⟨10, 8⟩
     ⟨PlayerState.Standing, Orientation.Left, false, false, false⟩
     ⟨5, 5⟩ ⟨⟨⟨0, 0⟩, ⟨3, 5⟩⟩, ⟨0, 0⟩, true⟩ true ⟨100, -7⟩
     (by decide) (by decide)⟩

/-- Claim C2 counterexample: for the section origin (-1, 0) on a 5x5 map,
`renderMapTiles` performs the tile lookup `(layer 0, col -1, row 0)`,
which is outside `[0, width)`: the clip test only checks the upper
bounds, so origins with negative coordinates are not clipped. -/
theorem C2_negative_origin_counterexample :
    (0, -1, 0) ∈ renderMapTilesLookups 5 5 ⟨-1, 0⟩ ⟨1, 1⟩ ∧ (-1 : Int) < 0 := by
  decide

/-- Claim C2 (amended): for every section origin with non-negative
coordinates and every section size, `renderBackground` / `renderForeground`
(both delegating to `renderMapTiles`) never perform a tile lookup at a
cell outside `[0, width) x [0, height)` of the map: cells past the right
or bottom edge are skipped by clipping. -/
theorem C2_lookups_in_bounds (mapW mapH : Nat) (s : Vec) (sz : Extents)
    (hx : 0 ≤ s.x) (hy : 0 ≤ s.y) :
    ∀ e ∈ renderMapTilesLookups mapW mapH s sz,
      0 ≤ e.2.1 ∧ e.2.1 < (mapW : Int) ∧ 0 ≤ e.2.2 ∧ e.2.2 < (mapH : Int) := by
  intro e he
  obtain ⟨layer, -, he⟩ := List.mem_flatMap.mp he
  obtain ⟨y, hy', he⟩ := List.mem_flatMap.mp he
  obtain ⟨x, hx', hfx⟩ := List.mem_filterMap.mp he
  by_cases hcl : ((x : Int) + s.x ≥ (mapW : Int) ∨ (y : Int) + s.y ≥ (mapH : Int))
  · rw [if_pos hcl] at hfx
    cases hfx
  · rw [if_neg hcl] at hfx
    obtain rfl := Option.some.inj hfx
    push_neg at hcl
    refine ⟨?_, ?_, ?_, ?_⟩ <;> dsimp only <;> omega

/-- Witness for the amended C2 at a concrete input: a 2x2 section at
origin (4, 4) of a 5x5 map (partially out of bounds on the far edges). -/
theorem C2_lookups_in_bounds_witness :
    (0 : Int) ≤ 4 ∧ (0 : Int) ≤ 4 ∧
    (∀ e ∈ renderMapTilesLookups 5 5 ⟨4, 4⟩ ⟨2, 2⟩,
      0 ≤ e.2.1 ∧ e.2.1 < ((5 : Nat) : Int) ∧ 0 ≤ e.2.2 ∧ e.2.2 < ((5 : Nat) : Int)) :=
  ⟨by decide, by decide, C2_lookups_in_bounds 5 5 ⟨4, 4⟩ ⟨2, 2⟩ (by decide) (by decide)⟩

/-- Claim C3 counterexample: in mode `ParallaxVertical` with camera
position (0, 10) and viewport 320x200 px, the code computes backdrop
offset (0, 0) (no branch of `renderBackdrop` handles `ParallaxVertical`),
while the claim demands `(10 * 4) mod 200 = 40` on the vertical axis. -/
theorem C3_parallax_vertical_counterexample :
    (renderBackdropOffset 320 200 BackdropScrollMode.ParallaxVertical ⟨0, 10⟩ 0).1.y = 0 ∧
    ((10 * 4 : Int).tmod 200 = 40) ∧ (0 : Int) ≠ 40 := by
  decide

/-- Claim C3 (amended): for a positive viewport extent and non-negative
camera coordinates, in mode `ParallaxHorizontal` the backdrop offset is
`(cameraX * 4) mod viewportWidth` on x (which lies in `[0, width)`) and 0
on y; in mode `ParallaxBoth`, both axes are so wrapped and in range; in
mode `ParallaxVertical` the code computes offset (0, 0) on both axes (it
is handled by no branch), diverging from the parallax formula. -/
theorem C3_parallax_offsets (vwPx vhPx : Int) (camera : Vec) (elapsed : Nat)
    (hw : 0 < vwPx) (hh : 0 < vhPx) (hx : 0 ≤ camera.x) (hy : 0 ≤ camera.y) :
    ((renderBackdropOffset vwPx vhPx BackdropScrollMode.ParallaxHorizontal camera elapsed).1
        = ⟨(camera.x * PARALLAX_FACTOR).tmod vwPx, 0⟩ ∧
      0 ≤ (camera.x * PARALLAX_FACTOR).tmod vwPx ∧
      (camera.x * PARALLAX_FACTOR).tmod vwPx < vwPx) ∧
    ((renderBackdropOffset vwPx vhPx BackdropScrollMode.ParallaxBoth camera elapsed).1
        = ⟨(camera.x * PARALLAX_FACTOR).tmod vwPx, (camera.y * PARALLAX_FACTOR).tmod vhPx⟩ ∧
      0 ≤ (camera.y * PARALLAX_FACTOR).tmod vhPx ∧
      (camera.y * PARALLAX_FACTOR).tmod vhPx < vhPx) ∧
    (renderBackdropOffset vwPx vhPx BackdropScrollMode.ParallaxVertical camera elapsed).1
        = ⟨0, 0⟩ := by
  have h4 : (0 : Int) ≤ 4 := by decide
  have hrx := tmod_range (camera.x * PARALLAX_FACTOR) vwPx
    (mul_nonneg hx (by decide)) hw
  have hry := tmod_range (camera.y * PARALLAX_FACTOR) vhPx
    (mul_nonneg hy (by decide)) hh
  refine ⟨⟨?_, hrx.1, hrx.2⟩, ⟨?_, hry.1, hry.2⟩, ?_⟩ <;>
    simp [renderBackdropOffset, wrapBackgroundOffset, Int.zero_tmod]

/-- Witness for the amended C3 at a concrete input: viewport 320x200,
camera (70, 110). -/
theorem C3_parallax_offsets_witness :
    ((0 : Int) < 320 ∧ (0 : Int) < 200 ∧ (0 : Int) ≤ 70 ∧ (0 : Int) ≤ 110) ∧
    (((renderBackdropOffset 320 200 BackdropScrollMode.ParallaxHorizontal ⟨70, 110⟩ 0).1
        = ⟨((70 : Int) * PARALLAX_FACTOR).tmod 320, 0⟩ ∧
      0 ≤ ((70 : Int) * PARALLAX_FACTOR).tmod 320 ∧
      ((70 : Int) * PARALLAX_FACTOR).tmod 320 < 320) ∧
    ((renderBackdropOffset 320 200 BackdropScrollMode.ParallaxBoth ⟨70, 110⟩ 0).1
        = ⟨((70 : Int) * PARALLAX_FACTOR).tmod 320, ((110 : Int) * PARALLAX_FACTOR).tmod 200⟩ ∧
      0 ≤ ((110 : Int) * PARALLAX_FACTOR).tmod 200 ∧
      ((110 : Int) * PARALLAX_FACTOR).tmod 200 < 200) ∧
    (renderBackdropOffset 320 200 BackdropScrollMode.ParallaxVertical ⟨70, 110⟩ 0).1
        = ⟨0, 0⟩) :=
  ⟨⟨by decide, by decide, by decide, by decide⟩,
   C3_parallax_offsets 320 200 ⟨70, 110⟩ 0 (by decide) (by decide) (by decide) (by decide)⟩

/-- Claim C7 counterexample: after 4 backdrop render calls the
auto-vertical raw offset has advanced 4 px (1 px per frame), so a
horizontal rate of twice the vertical rate would put the horizontal
offset at `8 mod 320 = 8`; the code instead divides the frame counter by
2 and shows offset 2 — horizontal auto-scroll is at HALF the vertical
rate, not twice it. -/
theorem C7_auto_scroll_rate_counterexample :
    (renderBackdropOffset 320 200 BackdropScrollMode.AutoHorizontal ⟨0, 0⟩ 4).1.x = 2 ∧
    (renderBackdropOffset 320 200 BackdropScrollMode.AutoVertical ⟨0, 0⟩ 4).1.y = 200 - 4 ∧
    ((2 * 4 : Int).tmod 320 = 8) ∧ (2 : Int) ≠ 8 := by
  decide

/-- Claim C7 (amended): in the auto-scroll modes the offset is derived
from the frame counter and is independent of the camera position;
horizontal auto-scroll advances at HALF the rate of vertical auto-scroll
(raw offset `round(frames / 2)` versus `frames`, so after `2 * f` frames
the horizontal raw offset is `f`), and the vertical auto-scroll offset is
mirrored as `height - (frames mod height)`. -/
theorem C7_auto_scroll_offsets (vwPx vhPx : Int) (cam cam2 : Vec) (f : Nat) :
    (renderBackdropOffset vwPx vhPx BackdropScrollMode.AutoHorizontal cam f
      = (⟨((roundHalfDiv2 f : Nat) : Int).tmod vwPx, 0⟩, f + 1)) ∧
    (renderBackdropOffset vwPx vhPx BackdropScrollMode.AutoVertical cam f
      = (⟨0, vhPx - ((f : Nat) : Int).tmod vhPx⟩, f + 1)) ∧
    (renderBackdropOffset vwPx vhPx BackdropScrollMode.AutoHorizontal cam f
      = renderBackdropOffset vwPx vhPx BackdropScrollMode.AutoHorizontal cam2 f) ∧
    (renderBackdropOffset vwPx vhPx BackdropScrollMode.AutoVertical cam f
      = renderBackdropOffset vwPx vhPx BackdropScrollMode.AutoVertical cam2 f) ∧
    roundHalfDiv2 (2 * f) = f := by
  refine ⟨?_, ?_, ?_, ?_, ?_⟩ <;>
    simp [renderBackdropOffset, roundHalfDiv2]

/-- Claim C8 counterexample: with a primary backdrop texture and no
secondary (the alternative slot holds the empty texture), a call to
`switchBackdrops` changes the primary: it is NOT a no-op. -/
theorem C8_switch_backdrops_counterexample :
    ¬ ((switchBackdrops
        { mBackdropTexture := some 0, mAlternativeBackdropTexture := none }).mBackdropTexture
      = some 0) := by
  decide

/-- Claim C8 (amended): `switchBackdrops` always swaps the two texture
slots unconditionally; in particular, when no secondary backdrop exists
the primary becomes the empty texture afterwards (and the old primary is
parked in the secondary slot), so the call is not a no-op. -/
theorem C8_switch_backdrops_swaps (s : BackdropState) :
    (switchBackdrops s).mBackdropTexture = s.mAlternativeBackdropTexture ∧
    (switchBackdrops s).mAlternativeBackdropTexture = s.mBackdropTexture ∧
    (s.mAlternativeBackdropTexture = none →
      (switchBackdrops s).mBackdropTexture = none) := by
  refine ⟨rfl, rfl, fun h => ?_⟩
  simp [switchBackdrops, h]

/-- Witness for the amended C8 at a concrete input: primary texture 3,
no secondary. -/
theorem C8_switch_backdrops_swaps_witness :
    (switchBackdrops
        { mBackdropTexture := some 3, mAlternativeBackdropTexture := none }).mBackdropTexture
      = none ∧
    (switchBackdrops
        { mBackdropTexture := some 3, mAlternativeBackdropTexture := none }).mAlternativeBackdropTexture
      = some 3 :=
  ⟨(C8_switch_backdrops_swaps
      { mBackdropTexture := some 3, mAlternativeBackdropTexture := none }).2.2 rfl,
   (C8_switch_backdrops_swaps
      { mBackdropTexture := some 3, mAlternativeBackdropTexture := none }).2.1⟩

/-- Claim C9: for every animated tile, the drawn index equals the base
index plus the cycle offset `(elapsedFrames / delay) mod 4` with delay 1
for fast-animation tiles and 2 for slow ones; consequently the drawn
index is periodic in the elapsed-frame counter with period 4 for fast
tiles and period 8 for slow tiles. -/
theorem C9_animated_tile_cycle (attrs : Nat → TileAttributes) (e t : Nat)
    (hAnim : (attrs t).isAnimated = true) :
    animatedTileIndex attrs e t =
      t + (e / (if (attrs t).isFastAnimation then FAST_ANIM_FRAME_DELAY
                else SLOW_ANIM_FRAME_DELAY)) % ANIM_STATES ∧
    animatedTileIndex attrs (e + (if (attrs t).isFastAnimation then 4 else 8)) t
      = animatedTileIndex attrs e t := by
  unfold animatedTileIndex FAST_ANIM_FRAME_DELAY SLOW_ANIM_FRAME_DELAY ANIM_STATES
  cases h : (attrs t).isFastAnimation <;> simp [hAnim, h]
  omega

/-- Witness for C9 at a concrete input: a slow-animation attribute table,
elapsed counter 5, tile 40. -/
theorem C9_animated_tile_cycle_witness :
    ((fun (_ : Nat) => TileAttributes.mk false true false false) 40).isAnimated = true ∧
    (animatedTileIndex (fun _ => TileAttributes.mk false true false false) 5 40 =
      40 + (5 / (if ((fun (_ : Nat) => TileAttributes.mk false true false false) 40).isFastAnimation
                 then FAST_ANIM_FRAME_DELAY else SLOW_ANIM_FRAME_DELAY)) % ANIM_STATES ∧
    animatedTileIndex (fun _ => TileAttributes.mk false true false false)
        (5 + (if ((fun (_ : Nat) => TileAttributes.mk false true false false) 40).isFastAnimation
              then 4 else 8)) 40
      = animatedTileIndex (fun _ => TileAttributes.mk false true false false) 5 40) :=
  ⟨by decide,
   C9_animated_tile_cycle (fun _ => TileAttributes.mk false true false false) 5 40 (by decide)⟩

/-- Whatever its branch, the ladder attachment block never changes the
vertical world position. -/
theorem ladderAttachStep_wp_y (grid : LadderGrid) (vmw mUp : Bool) (bounds : Rect)
    (st : PlayerControlled) (ph : Physical) (wp : Vec) :
    (ladderAttachStep grid vmw mUp bounds st ph wp).2.2.y = wp.y := by
  unfold ladderAttachStep
  split
  · split
    · split <;> rfl
    · rfl
  · rfl

/-- When the grab condition (direction up, not climbing, a ladder touch
point in the bounds) does not hold, the ladder attachment block leaves
state, physical body and world position untouched. -/
theorem ladderAttachStep_unchanged (grid : LadderGrid) (vmw mUp : Bool)
    (bounds : Rect) (st : PlayerControlled) (ph : Physical) (wp : Vec)
    (h : (vmw && decide (st.mState ≠ PlayerState.ClimbingLadder) && mUp
          && (findLadderTouchPoint grid bounds).isSome) = false) :
    ladderAttachStep grid vmw mUp bounds st ph wp = (st, ph, wp) := by
  unfold ladderAttachStep
  split
  · rename_i hcond
    split
    · rename_i hup
      rcases hf : findLadderTouchPoint grid bounds with _ | tp
      · simp [hf]
      · exfalso
        rw [hf] at h
        simp [hcond.1, hcond.2, hup] at h
    · rfl
  · rfl

/-- Claim C4 counterexample: the player's world-space box spans rows 2-6
and columns 2-4 (world position (2, 6), collision rect 3x5, facing
right, standing, only "up" pressed).  With the only ladder cell at
(3, 1) — the row directly above the box, where the claim says the search
happens — no grab occurs and the update ends in `LookingUp`, not
`ClimbingLadder`.  With the only ladder cell at (3, 6) — the bottom row
of the box, not its top row — the grab DOES fire.  The search region is
therefore the whole bounding box, not the top row nor the row above. -/
theorem C4_search_region_counterexample :
    (update (fun c r => decide (c = 3 ∧ r = 1)) [] ⟨false, false, true, false, false⟩ false
      ⟨PlayerState.Standing, Orientation.Right, false, false, false⟩
      ⟨⟨⟨0, 0⟩, ⟨3, 5⟩⟩, ⟨0, 0⟩, true⟩ 0 none ⟨2, 6⟩).state.mState = PlayerState.LookingUp ∧
    PlayerState.LookingUp ≠ PlayerState.ClimbingLadder ∧
    (update (fun c r => decide (c = 3 ∧ r = 6)) [] ⟨false, false, true, false, false⟩ false
      ⟨PlayerState.Standing, Orientation.Right, false, false, false⟩
      ⟨⟨⟨0, 0⟩, ⟨3, 5⟩⟩, ⟨0, 0⟩, true⟩ 0 none ⟨2, 6⟩).state.mState = PlayerState.ClimbingLadder := by
  decide

/-- Claim C4 (amended): the ladder attachment check is evaluated only
when vertical movement is requested with direction up and the player is
not already climbing (otherwise the block is the identity); on success
it transitions the state to `ClimbingLadder` and disables gravity; and
the search visits the player's ENTIRE bounding box — a touch point
exists iff some cell of the box (any row, any column) has the ladder
flag — not just the box's top row. -/
theorem C4_ladder_attachment (grid : LadderGrid) (vmw mUp : Bool) (bounds : Rect)
    (st : PlayerControlled) (ph : Physical) (wp : Vec) :
    (¬(vmw = true ∧ st.mState ≠ PlayerState.ClimbingLadder ∧ mUp = true) →
      ladderAttachStep grid vmw mUp bounds st ph wp = (st, ph, wp)) ∧
    (∀ tp, vmw = true → st.mState ≠ PlayerState.ClimbingLadder → mUp = true →
      findLadderTouchPoint grid bounds = some tp →
      (ladderAttachStep grid vmw mUp bounds st ph wp).1.mState
          = PlayerState.ClimbingLadder ∧
      (ladderAttachStep grid vmw mUp bounds st ph wp).2.1.mGravityAffected = false) ∧
    ((findLadderTouchPoint grid bounds).isSome ↔
      ∃ dy < bounds.size.height.toNat, ∃ dx < bounds.size.width.toNat,
        grid (bounds.topLeft.x + (dx : Int)) (bounds.topLeft.y + (dy : Int)) = true) := by
  refine ⟨?_, ?_, ?_⟩
  · intro h
    unfold ladderAttachStep
    split
    · rename_i hcond
      split
      · rename_i hup
        exact absurd ⟨hcond.1, hcond.2, hup⟩ h
      · rfl
    · rfl
  · intro tp h1 h2 h3 hfind
    subst h1 h3
    unfold ladderAttachStep
    rw [if_pos ⟨rfl, h2⟩, if_pos rfl, hfind]
    exact ⟨rfl, rfl⟩
  · unfold findLadderTouchPoint
    simp only [List.findSome?_isSome_iff, List.mem_range]
    constructor
    · rintro ⟨dy, hdy, dx, hdx, hsome⟩
      refine ⟨dy, hdy, dx, hdx, ?_⟩
      by_cases hg : grid (bounds.topLeft.x + (dx : Int)) (bounds.topLeft.y + (dy : Int)) = true
      · exact hg
      · rw [if_neg hg] at hsome
        cases hsome
    · rintro ⟨dy, hdy, dx, hdx, hg⟩
      refine ⟨dy, hdy, dx, hdx, ?_⟩
      rw [if_pos hg]
      rfl

/-- Witness for the amended C4 at a concrete input: a standing player
grabbing a ladder cell located in the bottom row of its box. -/
theorem C4_ladder_attachment_witness :
    (ladderAttachStep (fun c r => decide (c = 3 ∧ r = 6)) true true
        (worldSpaceBounds ⟨⟨⟨0, 0⟩, ⟨3, 5⟩⟩, ⟨0, 0⟩, true⟩ ⟨2, 6⟩)
        ⟨PlayerState.Standing, Orientation.Right, false, false, false⟩
        ⟨⟨⟨0, 0⟩, ⟨3, 5⟩⟩, ⟨0, 0⟩, true⟩ ⟨2, 6⟩).1.mState = PlayerState.ClimbingLadder ∧
    (ladderAttachStep (fun c r => decide (c = 3 ∧ r = 6)) true true
        (worldSpaceBounds ⟨⟨⟨0, 0⟩, ⟨3, 5⟩⟩, ⟨0, 0⟩, true⟩ ⟨2, 6⟩)
        ⟨PlayerState.Standing, Orientation.Right, false, false, false⟩
        ⟨⟨⟨0, 0⟩, ⟨3, 5⟩⟩, ⟨0, 0⟩, true⟩ ⟨2, 6⟩).2.1.mGravityAffected = false :=
  (C4_ladder_attachment (fun c r => decide (c = 3 ∧ r = 6)) true true
      (worldSpaceBounds ⟨⟨⟨0, 0⟩, ⟨3, 5⟩⟩, ⟨0, 0⟩, true⟩ ⟨2, 6⟩)
      ⟨PlayerState.Standing, Orientation.Right, false, false, false⟩
      ⟨⟨⟨0, 0⟩, ⟨3, 5⟩⟩, ⟨0, 0⟩, true⟩ ⟨2, 6⟩).2.1
    ⟨3, 6⟩ rfl (by decide) rfl (by decide)

/-- Claim C5: for every successful ladder grab, after the position snap
the anchor column of the player's bounding box (column 0 when the
orientation is Left, column 1 when Right) equals the column of the found
ladder cell.  The hypothesis `mCollisionRect.topLeft.x = 0` always holds
in this code base: both `initializePlayerEntity` and
`updateAnimationStateAndBoundingBox` set the collision rect's top-left
to (0, 0). -/
theorem C5_snap_aligns_anchor_column (grid : LadderGrid) (st : PlayerControlled)
    (ph : Physical) (wp : Vec) (tp : Vec) (vmw mUp : Bool)
    (hrect : ph.mCollisionRect.topLeft.x = 0)
    (hstate : st.mState ≠ PlayerState.ClimbingLadder)
    (hvmw : vmw = true) (hup : mUp = true)
    (hfind : findLadderTouchPoint grid (worldSpaceBounds ph wp) = some tp) :
    (worldSpaceBounds (ladderAttachStep grid vmw mUp (worldSpaceBounds ph wp) st ph wp).2.1
        (ladderAttachStep grid vmw mUp (worldSpaceBounds ph wp) st ph wp).2.2).topLeft.x
      + (if (ladderAttachStep grid vmw mUp (worldSpaceBounds ph wp) st ph wp).1.mOrientation
           = Orientation.Left then 0 else 1) = tp.x := by
  subst hvmw hup
  unfold ladderAttachStep
  rw [if_pos ⟨rfl, hstate⟩, if_pos rfl, hfind]
  cases horient : st.mOrientation <;>
    simp [worldSpaceBounds, horient, hrect]
  all_goals omega

/-- Witness for C5 at a concrete input: a right-facing player at (2, 6)
grabbing the ladder cell (3, 6); after the snap the box's column 1 is
column 3. -/
theorem C5_snap_aligns_anchor_column_witness :
    (worldSpaceBounds
        (ladderAttachStep (fun c r => decide (c = 3 ∧ r = 6)) true true
          (worldSpaceBounds ⟨⟨⟨0, 0⟩, ⟨3, 5⟩⟩, ⟨0, 0⟩, true⟩ ⟨2, 6⟩)
          ⟨PlayerState.Standing, Orientation.Right, false, false, false⟩
          ⟨⟨⟨0, 0⟩, ⟨3, 5⟩⟩, ⟨0, 0⟩, true⟩ ⟨2, 6⟩).2.1
        (ladderAttachStep (fun c r => decide (c = 3 ∧ r = 6)) true true
          (worldSpaceBounds ⟨⟨⟨0, 0⟩, ⟨3, 5⟩⟩, ⟨0, 0⟩, true⟩ ⟨2, 6⟩)
          ⟨PlayerState.Standing, Orientation.Right, false, false, false⟩
          ⟨⟨⟨0, 0⟩, ⟨3, 5⟩⟩, ⟨0, 0⟩, true⟩ ⟨2, 6⟩).2.2).topLeft.x
      + (if (ladderAttachStep (fun c r => decide (c = 3 ∧ r = 6)) true true
              (worldSpaceBounds ⟨⟨⟨0, 0⟩, ⟨3, 5⟩⟩, ⟨0, 0⟩, true⟩ ⟨2, 6⟩)
              ⟨PlayerState.Standing, Orientation.Right, false, false, false⟩
              ⟨⟨⟨0, 0⟩, ⟨3, 5⟩⟩, ⟨0, 0⟩, true⟩ ⟨2, 6⟩).1.mOrientation
           = Orientation.Left then 0 else 1) = (⟨3, 6⟩ : Vec).x :=
  C5_snap_aligns_anchor_column (fun c r => decide (c = 3 ∧ r = 6))
    ⟨PlayerState.Standing, Orientation.Right, false, false, false⟩
    ⟨⟨⟨0, 0⟩, ⟨3, 5⟩⟩, ⟨0, 0⟩, true⟩ ⟨2, 6⟩ ⟨3, 6⟩ true true
    rfl (by decide) rfl rfl (by decide)

/-- Claim C6: for every update call in which the player is climbing,
"down" is held and "up" is not, and the ladder grid has no ladder cell
in the row below the player's bounding box (`canClimbDown` fails), after
the update the state is `Airborne`, the gravity-affected flag is set,
and the vertical velocity is +1. -/
theorem C6_climb_down_off_ladder (grid : LadderGrid) (interactables : List Vec)
    (inp : PlayerInputState) (hasTicks : Bool) (st0 : PlayerControlled)
    (ph0 : Physical) (frame0 : Int) (anim0 : Option (Nat × Int × Int)) (wp0 : Vec)
    (hstate : st0.mState = PlayerState.ClimbingLadder)
    (hup : inp.mMovingUp = false) (hdown : inp.mMovingDown = true)
    (hclimb : canClimbDown grid (worldSpaceBounds ph0 wp0) = false) :
    (update grid interactables inp hasTicks st0 ph0 frame0 anim0 wp0).state.mState
        = PlayerState.Airborne ∧
    (update grid interactables inp hasTicks st0 ph0 frame0 anim0 wp0).physical.mGravityAffected
        = true ∧
    (update grid interactables inp hasTicks st0 ph0 frame0 anim0 wp0).physical.mVelocity.y
        = 1 := by
  obtain ⟨l, r, u, d, j⟩ := inp
  dsimp only at hup hdown
  subst hup hdown
  have hstate1 : (if st0.mPerformedInteraction ∧ ¬(false : Bool) then
      { st0 with mPerformedInteraction := false } else st0).mState = st0.mState := by
    split <;> rfl
  simp only [update]
  simp [hstate1, hstate, hclimb, ladderAttachStep, updateAnimationStateAndBoundingBox,
    apply_ite PlayerControlled.mState, apply_ite PlayerControlled.mOrientation,
    apply_ite PlayerControlled.mPerformedInteraction,
    apply_ite PlayerControlled.mIsLookingUp, apply_ite PlayerControlled.mIsLookingDown,
    apply_ite Physical.mGravityAffected, apply_ite Physical.mVelocity,
    apply_ite Physical.mCollisionRect, apply_ite Velocity.y, apply_ite Velocity.x,
    apply_ite Prod.fst, apply_ite Prod.snd]

/-- Witness for C6 at a concrete input: climbing player at (2, 6); the
ladder ends at row 6, so the row below the box (row 7) has no ladder. -/
theorem C6_climb_down_off_ladder_witness :
    (update (fun c r => decide (c = 3 ∧ r ≤ 6)) [] ⟨false, false, false, true, false⟩ false
      ⟨PlayerState.ClimbingLadder, Orientation.Left, false, false, false⟩
      ⟨⟨⟨0, 0⟩, ⟨3, 5⟩⟩, ⟨0, 0⟩, false⟩ 36 none ⟨2, 6⟩).state.mState
        = PlayerState.Airborne ∧
    (update (fun c r => decide (c = 3 ∧ r ≤ 6)) [] ⟨false, false, false, true, false⟩ false
      ⟨PlayerState.ClimbingLadder, Orientation.Left, false, false, false⟩
      ⟨⟨⟨0, 0⟩, ⟨3, 5⟩⟩, ⟨0, 0⟩, false⟩ 36 none ⟨2, 6⟩).physical.mGravityAffected
        = true ∧
    (update (fun c r => decide (c = 3 ∧ r ≤ 6)) [] ⟨false, false, false, true, false⟩ false
      ⟨PlayerState.ClimbingLadder, Orientation.Left, false, false, false⟩
      ⟨⟨⟨0, 0⟩, ⟨3, 5⟩⟩, ⟨0, 0⟩, false⟩ 36 none ⟨2, 6⟩).physical.mVelocity.y
        = 1 :=
  C6_climb_down_off_ladder (fun c r => decide (c = 3 ∧ r ≤ 6)) []
    ⟨false, false, false, true, false⟩ false
    ⟨PlayerState.ClimbingLadder, Orientation.Left, false, false, false⟩
    ⟨⟨⟨0, 0⟩, ⟨3, 5⟩⟩, ⟨0, 0⟩, false⟩ 36 none ⟨2, 6⟩
    rfl rfl rfl (by decide)

/-- Claim C10: no `update` call ever modifies the player's vertical world
position, and the horizontal world position is modified only when the
ladder-attachment snap fires this tick; when no grab occurs, the world
position is entirely unchanged. -/
theorem C10_world_position_effect (grid : LadderGrid) (interactables : List Vec)
    (inp : PlayerInputState) (hasTicks : Bool) (st0 : PlayerControlled)
    (ph0 : Physical) (frame0 : Int) (anim0 : Option (Nat × Int × Int)) (wp0 : Vec) :
    (update grid interactables inp hasTicks st0 ph0 frame0 anim0 wp0).worldPos.y = wp0.y ∧
    (ladderGrabOccurs grid inp st0 ph0 wp0 = false →
      (update grid interactables inp hasTicks st0 ph0 frame0 anim0 wp0).worldPos = wp0) := by
  constructor
  · simp only [update]
    rw [apply_ite UpdateResult.worldPos]
    dsimp only
    rw [ite_self]
    exact ladderAttachStep_wp_y _ _ _ _ _ _ _
  · intro hgrab
    simp only [update]
    rw [apply_ite UpdateResult.worldPos]
    dsimp only
    rw [ite_self]
    have hstate1 : (if st0.mPerformedInteraction ∧ ¬inp.mMovingUp then
        { st0 with mPerformedInteraction := false } else st0).mState = st0.mState := by
      split <;> rfl
    rw [ladderAttachStep_unchanged]
    rw [hstate1]
    simp only [ladderGrabOccurs] at hgrab
    exact hgrab

/-- Witness for C10 at a concrete input: a standing player walking left
with no ladder anywhere; the world position (2, 6) is unchanged. -/
theorem C10_world_position_effect_witness :
    (update (fun _ _ => false) [] ⟨true, false, false, false, false⟩ true
      ⟨PlayerState.Standing, Orientation.Right, false, false, false⟩
      ⟨⟨⟨0, 0⟩, ⟨3, 5⟩⟩, ⟨0, 0⟩, true⟩ 0 none ⟨2, 6⟩).worldPos.y = (⟨2, 6⟩ : Vec).y ∧
    (update (fun _ _ => false) [] ⟨true, false, false, false, false⟩ true
      ⟨PlayerState.Standing, Orientation.Right, false, false, false⟩
      ⟨⟨⟨0, 0⟩, ⟨3, 5⟩⟩, ⟨0, 0⟩, true⟩ 0 none ⟨2, 6⟩).worldPos = ⟨2, 6⟩ :=
  ⟨(C10_world_position_effect (fun _ _ => false) [] ⟨true, false, false, false, false⟩ true
      ⟨PlayerState.Standing, Orientation.Right, false, false, false⟩
      ⟨⟨⟨0, 0⟩, ⟨3, 5⟩⟩, ⟨0, 0⟩, true⟩ 0 none ⟨2, 6⟩).1,
   (C10_world_position_effect (fun _ _ => false) [] ⟨true, false, false, false, false⟩ true
      ⟨PlayerState.Standing, Orientation.Right, false, false, false⟩
      ⟨⟨⟨0, 0⟩, ⟨3, 5⟩⟩, ⟨0, 0⟩, true⟩ 0 none ⟨2, 6⟩).2 (by decide)⟩

end Rigel
